import Mathlib

set_option maxRecDepth 4000

/-!
Verification development for the filament backend caching layer.

The definitions below are a shallow embedding of the C++ sources:
* filament/backend/src/webgpu/WebGPUPipelineCache.{h,cpp} — the pipeline-state
  Descriptor (WebGPURenderPipelineRequirements), its Hash and Equal functors,
  and the generational pipeline cache (getOrCreateRenderPipeline, gc);
* filament/backend/src/opengl/OpenGLBlobCache.cpp — blob retrieval and
  program instantiation from a cached binary;
* filament/backend/src/webgpu/WGPUProgram.cpp — the specialization-constant
  map built by the WGPUProgram constructor;
* filament/backend/src/webgpu/WebGPUHandles.cpp — convertConstants.

Machine scalars (enum values, pointers/handles, bit masks, floating-point
codes) are modelled as Nat: none of the verified properties perform
arithmetic on them, only equality tests and hashing, so an opaque injective
encoding is faithful.  Machine doubles appearing as *values* (convertConstants)
are modelled as rationals, which represent every float32/float64 value and the
literals 0.0/1.0 exactly.
-/

namespace Filament

/-- Embedding of wgpu::VertexAttribute (format, offset, shaderLocation). -/
structure VertexAttribute where
  format : Nat
  offset : Nat
  shaderLocation : Nat
deriving DecidableEq, Repr, Inhabited

/-- Embedding of wgpu::VertexBufferLayout: stepMode, arrayStride, attributeCount
and the pointed-to attribute array (modelled as the list it points at; the code
only ever reads indices below attributeCount). -/
structure VertexBufferLayout where
  stepMode : Nat
  arrayStride : Nat
  attributeCount : Nat
  attributes : List VertexAttribute
deriving DecidableEq, Repr, Inhabited

/-- Embedding of wgpu::ConstantEntry: a string key and a double value
(the value is an opaque scalar code here; only equality and hashing touch it). -/
structure ConstantEntry where
  key : String
  value : Nat
deriving DecidableEq, Repr, Inhabited

/-- Embedding of wgpu::BlendComponent. -/
structure BlendComponent where
  operation : Nat
  srcFactor : Nat
  dstFactor : Nat
deriving DecidableEq, Repr, Inhabited

/-- Embedding of wgpu::BlendState (color and alpha components). -/
structure BlendState where
  color : BlendComponent
  alpha : BlendComponent
deriving DecidableEq, Repr, Inhabited

/-- Embedding of WebGPURenderPipelineRequirements (WebGPUPipelineCache.h).
The two std::array fields have fixed capacity MAX_VERTEX_ATTRIBUTE_COUNT resp.
MAX_VERTEX_BUFFER_COUNT (16 each); they are modelled as lists, with the field
defaults mirroring the header's default-initialized 16-slot arrays. -/
structure WebGPURenderPipelineRequirements where
  vertexShaderModule : Nat := 0
  fragmentShaderModule : Nat := 0
  vertexAttributes : List VertexAttribute := List.replicate 16 default
  vertexBufferLayouts : List VertexBufferLayout := List.replicate 16 default
  vertexBufferCount : Nat := 0
  constants : List ConstantEntry := []
  topology : Nat := 0
  cullMode : Nat := 0
  frontFace : Nat := 0
  blendEnable : Bool := false
  depthWriteEnabled : Nat := 0
  alphaToCoverageEnabled : Bool := false
  blendState : BlendState := default
  colorWriteMask : Nat := 15
  multisampleCount : Nat := 0
  unclippedDepth : Bool := false
  colorTargetCount : Nat := 0
  depthCompare : Nat := 0
  depthBias : Nat := 0
  depthBiasSlopeScale : Nat := 0
  layout : Nat := 0
  colorFormat : Nat := 0
  depthFormat : Nat := 0
deriving DecidableEq, Repr, Inhabited

/-- Modulus of size_t arithmetic: the literal value of 2 ^ 64. -/
def SIZE_T_MOD : Nat := 18446744073709551616

/-- Fact: SIZE_T_MOD is 2 ^ 64. -/
theorem SIZE_T_MOD_eq : SIZE_T_MOD = 2 ^ 64 := by decide

/-- Modelled from the spec: utils::hash::combine (utils/Hash.h is not among the
provided sources).  It mixes one value into a running size_t seed; modelled as
a 64-bit multiply-add accumulator with integral values hashed by identity.
The exact mixing function is immaterial to the properties proved here, which
concern WHICH data each functor feeds into the accumulator. -/
def hashCombine (seed v : Nat) : Nat :=
  (seed * 1099511628211 + v + 2654435769) % SIZE_T_MOD

/-- Folding utils::hash::combine over a list of scalar values (one
hash::combine call with several arguments combines each in turn). -/
def hashCombineAll (seed : Nat) (vs : List Nat) : Nat :=
  vs.foldl hashCombine seed

/-- Modelled from the spec: std::hash of a string_view (standard library code,
not among the provided sources); modelled as a polynomial rolling hash so that
distinct short keys hash distinctly. -/
def hashString (s : String) : Nat :=
  s.data.foldl (fun h c => (h * 31 + c.toNat) % SIZE_T_MOD) 7

namespace WebGPURenderPipelineRequirements

/-- Embedding of WebGPURenderPipelineRequirements::Hash::operator()
(WebGPUPipelineCache.cpp lines 36-85): combines all scalar channels, then every
slot of the vertexAttributes array, then the first vertexBufferCount
vertexBufferLayouts entries (with their active attribute sub-ranges), then
every constants entry (key and value). -/
def Hash (r : WebGPURenderPipelineRequirements) : Nat :=
  let h := hashCombineAll 0 [r.vertexShaderModule, r.fragmentShaderModule,
    r.vertexBufferCount, r.topology, r.cullMode, r.frontFace, r.blendEnable.toNat,
    r.depthWriteEnabled, r.alphaToCoverageEnabled.toNat,
    r.blendState.color.operation, r.blendState.color.srcFactor,
    r.blendState.color.dstFactor,
    r.blendState.alpha.operation, r.blendState.alpha.srcFactor,
    r.blendState.alpha.dstFactor,
    r.colorWriteMask, r.multisampleCount, r.unclippedDepth.toNat,
    r.colorTargetCount, r.depthCompare, r.depthBias, r.depthBiasSlopeScale,
    r.layout, r.colorFormat, r.depthFormat]
  let h := r.vertexAttributes.foldl
    (fun h a => hashCombineAll h [a.format, a.offset, a.shaderLocation]) h
  let h := (List.range r.vertexBufferCount).foldl (fun h i =>
    let vbLayout := r.vertexBufferLayouts.getD i default
    let h := hashCombineAll h [vbLayout.stepMode, vbLayout.arrayStride,
      vbLayout.attributeCount]
    (List.range vbLayout.attributeCount).foldl (fun h attrIndex =>
      let a := vbLayout.attributes.getD attrIndex default
      hashCombineAll h [a.format, a.offset, a.shaderLocation]) h) h
  r.constants.foldl (fun h c => hashCombine (hashCombine h (hashString c.key)) c.value) h

/-- Embedding of the scalarsMatch conjunction at the head of
WebGPURenderPipelineRequirements::Equal::operator()
(WebGPUPipelineCache.cpp lines 92-117). -/
def scalarsMatch (first second : WebGPURenderPipelineRequirements) : Bool :=
  first.vertexShaderModule == second.vertexShaderModule &&
  first.fragmentShaderModule == second.fragmentShaderModule &&
  first.vertexBufferCount == second.vertexBufferCount &&
  first.topology == second.topology &&
  first.cullMode == second.cullMode &&
  first.frontFace == second.frontFace &&
  first.blendEnable == second.blendEnable &&
  first.depthWriteEnabled == second.depthWriteEnabled &&
  first.alphaToCoverageEnabled == second.alphaToCoverageEnabled &&
  first.blendState.color.operation == second.blendState.color.operation &&
  first.blendState.color.srcFactor == second.blendState.color.srcFactor &&
  first.blendState.color.dstFactor == second.blendState.color.dstFactor &&
  first.blendState.alpha.operation == second.blendState.alpha.operation &&
  first.blendState.alpha.srcFactor == second.blendState.alpha.srcFactor &&
  first.blendState.alpha.dstFactor == second.blendState.alpha.dstFactor &&
  first.colorWriteMask == second.colorWriteMask &&
  first.multisampleCount == second.multisampleCount &&
  first.unclippedDepth == second.unclippedDepth &&
  first.colorTargetCount == second.colorTargetCount &&
  first.depthCompare == second.depthCompare &&
  first.depthBias == second.depthBias &&
  first.depthBiasSlopeScale == second.depthBiasSlopeScale &&
  first.layout == second.layout &&
  first.colorFormat == second.colorFormat &&
  first.depthFormat == second.depthFormat

/-- Field-by-field comparison of one wgpu::VertexAttribute pair, as done by the
early-return checks of Equal::operator(). -/
def vertexAttributeMatches (x y : VertexAttribute) : Bool :=
  x.format == y.format && x.offset == y.offset && x.shaderLocation == y.shaderLocation

/-- The specialization-constant comparison of Equal::operator()
(WebGPUPipelineCache.cpp lines 160-172): sizes, then key and value per entry.
In the source this block sits INSIDE the vertex-buffer-layout loop, so it runs
once per active vertex buffer — and not at all when vertexBufferCount is 0. -/
def constantsMatch (first second : WebGPURenderPipelineRequirements) : Bool :=
  first.constants.length == second.constants.length &&
  (List.range first.constants.length).all (fun constIndex =>
    let firstConst := first.constants.getD constIndex default
    let secondConst := second.constants.getD constIndex default
    firstConst.key == secondConst.key && firstConst.value == secondConst.value)

/-- One iteration of the vertex-buffer-layout loop of Equal::operator()
(WebGPUPipelineCache.cpp lines 135-173): stepMode, arrayStride, attributeCount,
the active attribute sub-range, and — as in the source — the
specialization-constant comparison nested inside this loop body. -/
def vertexBufferLayoutMatches (first second : WebGPURenderPipelineRequirements)
    (vblIndex : Nat) : Bool :=
  let firstVBLayout := first.vertexBufferLayouts.getD vblIndex default
  let secondVBLayout := second.vertexBufferLayouts.getD vblIndex default
  firstVBLayout.stepMode == secondVBLayout.stepMode &&
  firstVBLayout.arrayStride == secondVBLayout.arrayStride &&
  firstVBLayout.attributeCount == secondVBLayout.attributeCount &&
  (List.range firstVBLayout.attributeCount).all (fun vAttrIndex =>
    vertexAttributeMatches (firstVBLayout.attributes.getD vAttrIndex default)
      (secondVBLayout.attributes.getD vAttrIndex default)) &&
  constantsMatch first second

/-- Embedding of WebGPURenderPipelineRequirements::Equal::operator()
(WebGPUPipelineCache.cpp lines 89-175): the scalar conjunction, then every slot
of the vertexAttributes array (the loop bound is the full array size), then the
first vertexBufferCount vertex-buffer layouts, each iteration of which also
re-checks the constants list. -/
def Equal (first second : WebGPURenderPipelineRequirements) : Bool :=
  scalarsMatch first second &&
  (List.range first.vertexAttributes.length).all (fun vAttrIndex =>
    vertexAttributeMatches (first.vertexAttributes.getD vAttrIndex default)
      (second.vertexAttributes.getD vAttrIndex default)) &&
  (List.range first.vertexBufferCount).all (vertexBufferLayoutMatches first second)

end WebGPURenderPipelineRequirements

/-- Embedding of WebGPUPipelineCache::RenderPipelineCacheEntry: the cached
pipeline (an opaque handle, modelled as Nat) and the generation stamp. -/
structure RenderPipelineCacheEntry where
  pipeline : Nat
  lastGcCountWhenUsed : Nat
deriving DecidableEq, Repr, Inhabited

/-- Embedding of the WebGPUPipelineCache state: the generation counter mGcCount
and the robin_map mRenderPipelines, modelled as an association list.  The
robin_map is modelled by its documented contract: find returns the (unique)
stored entry whose key is equivalent to the query under the KeyEqual functor. -/
structure WebGPUPipelineCache where
  mGcCount : Nat
  mRenderPipelines : List (WebGPURenderPipelineRequirements × RenderPipelineCacheEntry)
deriving DecidableEq, Repr, Inhabited

namespace WebGPUPipelineCache

open WebGPURenderPipelineRequirements

/-- Lookup-and-touch pass over the stored entries: on the first key equivalent
to the query (under Equal), set its lastGcCountWhenUsed to the current
generation and return the stored pipeline together with the updated list;
return none when no stored key is equivalent. -/
def lookupUpdate (gcCount : Nat)
    (entries : List (WebGPURenderPipelineRequirements × RenderPipelineCacheEntry))
    (reqs : WebGPURenderPipelineRequirements) :
    Option (Nat × List (WebGPURenderPipelineRequirements × RenderPipelineCacheEntry)) :=
  match entries with
  | [] => none
  | (k, e) :: rest =>
    if Equal k reqs then
      some (e.pipeline, (k, { e with lastGcCountWhenUsed := gcCount }) :: rest)
    else
      match lookupUpdate gcCount rest reqs with
      | some (p, rest') => some (p, (k, e) :: rest')
      | none => none

/-- Result of getOrCreateRenderPipeline: the returned pipeline, the cache state
afterwards, and whether createRenderPipeline (the constructor) was invoked. -/
structure GetOrCreateResult where
  pipeline : Nat
  cache : WebGPUPipelineCache
  constructorInvoked : Bool
deriving DecidableEq, Repr, Inhabited

/-- Embedding of WebGPUPipelineCache::getOrCreateRenderPipeline
(WebGPUPipelineCache.cpp lines 177-199).  On a hit the entry's generation stamp
is set to mGcCount and the stored pipeline returned.  On a miss the
constructor createRenderPipeline is invoked (modelled by the caller-supplied
function argument, as its body only calls into the opaque wgpu device) and the
new entry is emplaced with lastGcCountWhenUsed = 0, exactly as in the source. -/
def getOrCreateRenderPipeline (create : WebGPURenderPipelineRequirements → Nat)
    (cache : WebGPUPipelineCache) (reqs : WebGPURenderPipelineRequirements) :
    GetOrCreateResult :=
  match lookupUpdate cache.mGcCount cache.mRenderPipelines reqs with
  | some (p, entries') =>
    { pipeline := p, cache := { cache with mRenderPipelines := entries' },
      constructorInvoked := false }
  | none =>
    let cacheEntry : RenderPipelineCacheEntry :=
      { pipeline := create reqs, lastGcCountWhenUsed := 0 }
    { pipeline := cacheEntry.pipeline,
      cache := { cache with mRenderPipelines := cache.mRenderPipelines ++ [(reqs, cacheEntry)] },
      constructorInvoked := true }

/-- Embedding of WebGPUPipelineCache::gc (WebGPUPipelineCache.cpp lines
201-212), parameterized by the age limit FWGPU_PIPELINE_MAX_AGE (a compile-time
constant defined in WebGPUConstants.h, not among the provided sources):
increment mGcCount, then erase every entry whose stamp satisfies
mGcCount > lastGcCountWhenUsed + maxAge. -/
def gc (maxAge : Nat) (cache : WebGPUPipelineCache) : WebGPUPipelineCache :=
  let g := cache.mGcCount + 1
  { mGcCount := g,
    mRenderPipelines := cache.mRenderPipelines.filter
      (fun kv => !(g > kv.2.lastGcCountWhenUsed + maxAge)) }

end WebGPUPipelineCache

/-! Embedding of OpenGLBlobCache.cpp. -/

namespace OpenGLBlobCache

/-- Fixed first-attempt buffer size of OpenGLBlobCache::retrieve (64 KiB). -/
def DEFAULT_BLOB_SIZE : Nat := 65536

/-- Observable outcome of OpenGLBlobCache::retrieve: the returned blob buffer
content (none on the unsupported early-return, which returns a null pointer),
the reported size written to outSize (none when the early-return skips writing
it), and instrumentation counters for buffer allocations (Blob::create calls)
and platform retrieveBlob invocations. -/
structure RetrieveOutcome where
  blob : Option (List Nat)
  reportedSize : Option Nat
  allocations : Nat
  platformCalls : Nat
deriving DecidableEq, Repr, Inhabited

/-- Embedding of OpenGLBlobCache::retrieve (OpenGLBlobCache.cpp lines 34-70).
The platform's stored value for the computed key is modelled by the byte list
stored (empty when the key is absent); platform.retrieveBlob writes
min(capacity, size) bytes and returns the stored size (0 when absent).
cachingSupported models mCachingSupported (driver reports at least one program
binary format); hasRetrieveFunc models platform.hasRetrieveBlobFunc(). -/
def retrieve (cachingSupported hasRetrieveFunc : Bool) (stored : List Nat) :
    RetrieveOutcome :=
  if !cachingSupported || !hasRetrieveFunc then
    { blob := none, reportedSize := none, allocations := 0, platformCalls := 0 }
  else
    let blobSize := stored.length
    if blobSize > 0 && decide (blobSize > DEFAULT_BLOB_SIZE) then
      -- first attempt with the 64 KiB buffer reported a larger actual size:
      -- reallocate at exactly blobSize and retry once
      { blob := some (stored.take blobSize), reportedSize := some blobSize,
        allocations := 2, platformCalls := 2 }
    else
      { blob := some (stored.take DEFAULT_BLOB_SIZE), reportedSize := some blobSize,
        allocations := 1, platformCalls := 1 }

/-- Observable outcome of OpenGLBlobCache::createProgram: the returned GL
program name, the argument of the glDeleteProgram call when one was issued,
and the blob format tag included in the warning log when one was emitted. -/
structure CreateProgramResult where
  programId : Nat
  deletedProgram : Option Nat
  loggedFormat : Option Nat
deriving DecidableEq, Repr, Inhabited

/-- Embedding of OpenGLBlobCache::createProgram (OpenGLBlobCache.cpp lines
72-108), in the normal build (FILAMENT_SILENCE_NOT_SUPPORTED_BY_ES2 not
defined).  The GL driver is modelled by oracles: createdId is the name
glCreateProgram returns, glError the value glGetError reports after
glProgramBinary (0 = GL_NO_ERROR), linkOk the GL_LINK_STATUS the driver would
report.  linkStatus starts at GL_FALSE and is only queried when no error was
raised, exactly as in the source. -/
def createProgram (createdId glError : Nat) (linkOk : Bool) (blobFormat : Nat) :
    CreateProgramResult :=
  let linkStatus : Bool := if glError == 0 then linkOk else false
  if glError != 0 || linkStatus != true then
    { programId := 0, deletedProgram := some createdId, loggedFormat := some blobFormat }
  else
    { programId := createdId, deletedProgram := none, loggedFormat := none }

end OpenGLBlobCache

/-! Embedding of the specialization-constant handling of WGPUProgram.cpp and
WebGPUHandles.cpp. -/

/-- Embedding of the variant value of Program::SpecializationConstant:
int32_t, float or bool.  Float values are modelled as the rationals they
denote (every float32 value is a rational, and the conversions performed by
the sources are exact injections). -/
inductive SpecValue where
  | i32 (v : Int)
  | f32 (v : Rat)
  | bool (v : Bool)
deriving DecidableEq, Repr, Inhabited

/-- Embedding of Program::SpecializationConstant: a numeric id and a variant
value. -/
structure SpecializationConstant where
  id : Nat
  value : SpecValue
deriving DecidableEq, Repr, Inhabited

namespace WGPUProgram

/-- Association-list model of the std::unordered_map from constant id to
variant value; emplace-order is kept so lookups are deterministic. -/
def SpecConstMap := List (Nat × SpecValue)

/-- Embedding of toMap (WGPUProgram.cpp lines 267-273): unordered_map::emplace
inserts a binding only when the key is not yet present. -/
def toMap (specConstants : List SpecializationConstant) : List (Nat × SpecValue) :=
  specConstants.foldl
    (fun m c => if (m.lookup c.id).isSome then m else m ++ [(c.id, c.value)]) []

/-- Map-subscript assignment (specConstants[0] = 42): overwrite the binding
when present, append it otherwise. -/
def mapAssign (m : List (Nat × SpecValue)) (k : Nat) (v : SpecValue) :
    List (Nat × SpecValue) :=
  if (m.lookup k).isSome then
    m.map (fun kv => if kv.1 == k then (k, v) else kv)
  else
    m ++ [(k, v)]

/-- Embedding of the specialization-constant map the WGPUProgram constructor
builds before creating its shader modules (WGPUProgram.cpp lines 277-288): the
program's constants are gathered with toMap, and then, when an id-0 constant is
present, its value is overwritten with the int literal 42. -/
def wgpuProgramSpecConstants (programConstants : List SpecializationConstant) :
    List (Nat × SpecValue) :=
  let specConstants := toMap programConstants
  if (specConstants.lookup 0).isSome then
    mapAssign specConstants 0 (SpecValue.i32 42)
  else
    specConstants

/-- Value replaceSpecConstants substitutes for a spec-constant assignment with
the given id (WGPUProgram.cpp lines 95-115): the map's value for that id, or
none when the map has no binding (the original statement is left untouched). -/
def substitutedValue (specConstants : List (Nat × SpecValue)) (id : Nat) :
    Option SpecValue :=
  specConstants.lookup id

end WGPUProgram

namespace WebGPUHandles

/-- Embedding of wgpu::ConstantEntry as produced by convertConstants: a string
key and a double value, the double modelled as a rational (the conversions in
the source are exact). -/
structure WgpuConstantEntry where
  key : String
  value : Rat
deriving DecidableEq, Repr, Inhabited

/-- Embedding of convertConstants (WebGPUHandles.cpp lines 209-226): each
Program::SpecializationConstant becomes a ConstantEntry whose key is
std::to_string(id) and whose value is the variant payload cast to double —
with the bool arm writing 0.0 for true and 1.0 for false, as in the source. -/
def convertConstants (constantsInfo : List SpecializationConstant) :
    List WgpuConstantEntry :=
  constantsInfo.map (fun specConstant =>
    { key := toString specConstant.id,
      value :=
        match specConstant.value with
        | SpecValue.i32 v => (v : Rat)
        | SpecValue.f32 v => v
        | SpecValue.bool b => if b then 0 else 1 })

end WebGPUHandles

/-! Concrete descriptors used to evaluate the code at specific inputs.  All of
them carry the header's default field values (16 default-initialized slots in
each fixed-capacity array) except where noted. -/

/-- Default-initialized pipeline-state descriptor. -/
def reqBase : WebGPURenderPipelineRequirements := {}

/-- Descriptor differing from reqBase only in the specialization-constant
list: one constant, key "0", value code 5. -/
def reqOneConstant : WebGPURenderPipelineRequirements :=
  { constants := [⟨"0", 5⟩] }

/-- Descriptor with a single specialization constant of value code 1. -/
def reqConstantValue1 : WebGPURenderPipelineRequirements :=
  { constants := [⟨"0", 1⟩] }

/-- Descriptor with a single specialization constant of value code 2. -/
def reqConstantValue2 : WebGPURenderPipelineRequirements :=
  { constants := [⟨"0", 2⟩] }

/-- Descriptor differing from reqBase only in the last slot of the fixed-size
vertexAttributes array (an inactive slot: vertexBufferCount is 0, so no
vertex-buffer layout references any attribute). -/
def reqTrailingAttribute : WebGPURenderPipelineRequirements :=
  { vertexAttributes := List.replicate 15 default ++ [⟨1, 0, 0⟩] }

/-- Descriptor with one active vertex buffer (default layout storage). -/
def reqOneBuffer : WebGPURenderPipelineRequirements :=
  { vertexBufferCount := 1 }

/-- Vertex-buffer-layout storage whose 16th (inactive) slot carries junk. -/
def junkSlotLayouts : List VertexBufferLayout :=
  List.replicate 15 default ++ [⟨9, 9, 9, []⟩]

end Filament

open Filament
open Filament.WebGPURenderPipelineRequirements
open Filament.WebGPUPipelineCache
open Filament.OpenGLBlobCache
open Filament.WGPUProgram
open Filament.WebGPUHandles

/-- C1: the claim — Equal a b = true implies Hash a = Hash b — fails on the
code.  With vertexBufferCount = 0 the constants comparison of Equal (nested
inside the vertex-buffer-layout loop) never runs, while Hash always combines
every constants entry: reqBase and reqOneConstant differ only in the constants
list, Equal deems them equal, yet their hashes differ. -/
theorem C1_equal_true_but_hash_differs :
    Equal reqBase reqOneConstant = true ∧
    reqBase.constants ≠ reqOneConstant.constants ∧
    Hash reqBase ≠ Hash reqOneConstant := by
  refine ⟨by decide, by decide, by decide⟩

/-- C2: the claim — Descriptors agreeing on every other channel but differing
in the constants list compare unequal, in particular when vertexBufferCount is
0 — fails on the code: with vertexBufferCount = 0 the constants check sits
inside the never-entered vertex-buffer-layout loop, so two descriptors whose
lone constant has value 1 resp. 2 compare equal. -/
theorem C2_constants_ignored_when_no_vertex_buffers :
    reqConstantValue1.vertexBufferCount = 0 ∧
    reqConstantValue1.constants ≠ reqConstantValue2.constants ∧
    Equal reqConstantValue1 reqConstantValue2 = true := by
  refine ⟨by decide, by decide, by decide⟩

/-- C3: the claim — a freshly created entry is never evicted by the gc() pass
immediately following its creation, regardless of how large the generation
counter already is — fails on the code: getOrCreateRenderPipeline stamps new
entries with lastGcCountWhenUsed = 0 (not mGcCount), so with age limit 2 and
mGcCount = 3 at creation time, the very next gc() (advancing the current
generation to 4, which is at most 3 + 2) erases the entry just created. -/
theorem C3_fresh_entry_evicted_by_next_gc :
    (getOrCreateRenderPipeline (fun _ => 7) ⟨3, []⟩ reqBase).cache.mRenderPipelines =
      [(reqBase, ⟨7, 0⟩)] ∧
    (gc 2 (getOrCreateRenderPipeline (fun _ => 7) ⟨3, []⟩ reqBase).cache).mGcCount = 4 ∧
    4 ≤ 3 + 2 ∧
    (gc 2 (getOrCreateRenderPipeline (fun _ => 7) ⟨3, []⟩ reqBase).cache).mRenderPipelines
      = [] := by
  refine ⟨by decide, by decide, by decide, by decide⟩

/-- C8: the claim — the value substituted for every constant id present in the
program's specialization-constant set equals the caller's value — fails on the
code: the WGPUProgram constructor overwrites the id-0 entry with the literal
42 before shader-module creation, so a caller-supplied (id 0, int32 7)
constant is substituted as 42; ids other than 0 do keep the caller's value. -/
theorem C8_constant_zero_overridden_with_42 :
    substitutedValue (wgpuProgramSpecConstants [⟨0, SpecValue.i32 7⟩]) 0 =
      some (SpecValue.i32 42) ∧
    SpecValue.i32 42 ≠ SpecValue.i32 7 ∧
    substitutedValue (wgpuProgramSpecConstants [⟨1, SpecValue.i32 7⟩]) 1 =
      some (SpecValue.i32 7) := by
  refine ⟨by decide, by decide, by decide⟩

/-- C10: the claim — a bool constant converts to 1.0 when true and 0.0 when
false — fails on the code: convertConstants writes 0.0 for true and 1.0 for
false (the branch is inverted), while the key and the int32/float conversions
behave as claimed. -/
theorem C10_bool_conversion_inverted :
    convertConstants [⟨5, SpecValue.bool true⟩] = [⟨"5", 0⟩] ∧
    convertConstants [⟨4, SpecValue.bool false⟩] = [⟨"4", 1⟩] ∧
    (0 : Rat) ≠ 1 ∧
    convertConstants [⟨3, SpecValue.i32 (-2)⟩] = [⟨"3", -2⟩] ∧
    convertConstants [⟨2, SpecValue.f32 7⟩] = [⟨"2", 7⟩] := by
  refine ⟨by decide, by decide, by decide, by decide, by decide⟩

/-- Helper: gc increments the generation counter by exactly one. -/
theorem gc_mGcCount (maxAge : Nat) (cache : WebGPUPipelineCache) :
    (gc maxAge cache).mGcCount = cache.mGcCount + 1 := rfl

/-- Helper: iterated gc advances the generation counter by the number of
sweeps. -/
theorem gc_iterate_mGcCount (maxAge n : Nat) (cache : WebGPUPipelineCache) :
    ((gc maxAge)^[n] cache).mGcCount = cache.mGcCount + n := by
  induction n generalizing cache with
  | zero => rfl
  | succ n ih =>
    rw [Function.iterate_succ_apply, ih, gc_mGcCount]
    omega

/-- Helper: membership in the entry list after one gc sweep. -/
theorem mem_gc_iff (maxAge : Nat) (cache : WebGPUPipelineCache)
    (kv : WebGPURenderPipelineRequirements × RenderPipelineCacheEntry) :
    kv ∈ (gc maxAge cache).mRenderPipelines ↔
      kv ∈ cache.mRenderPipelines ∧
        cache.mGcCount + 1 ≤ kv.2.lastGcCountWhenUsed + maxAge := by
  simp only [gc, List.mem_filter, Bool.not_eq_true', decide_eq_false_iff_not, Nat.not_lt]

/-- Helper: membership in the entry list after n ≥ 1 gc sweeps. -/
theorem mem_gc_iterate_iff (maxAge n : Nat) (hn : 1 ≤ n)
    (cache : WebGPUPipelineCache)
    (kv : WebGPURenderPipelineRequirements × RenderPipelineCacheEntry) :
    kv ∈ ((gc maxAge)^[n] cache).mRenderPipelines ↔
      kv ∈ cache.mRenderPipelines ∧
        cache.mGcCount + n ≤ kv.2.lastGcCountWhenUsed + maxAge := by
  induction n generalizing cache with
  | zero => omega
  | succ n ih =>
    rcases Nat.eq_zero_or_pos n with h0 | hpos
    · subst h0
      rw [Function.iterate_one]
      exact mem_gc_iff maxAge cache kv
    · rw [Function.iterate_succ_apply, ih hpos, mem_gc_iff, gc_mGcCount]
      constructor
      · rintro ⟨⟨h1, h2⟩, h3⟩
        exact ⟨h1, by omega⟩
      · rintro ⟨h1, h2⟩
        exact ⟨⟨h1, by omega⟩, by omega⟩

/-- C4: gc() first increments the generation counter by exactly one, removes
no entry that was not stored, keeps a stored entry iff the incremented
generation is at most its stamp plus the age limit (equivalently: removes
exactly the entries with current > stamp + limit), and — iterating gc() from a
state in which the entry is stored — the entry survives while the current
generation stays at most stamp + limit and is gone from the sweep that
advances it past that bound. -/
theorem C4_gc_increments_and_evicts_exactly_aged (maxAge : Nat)
    (cache : WebGPUPipelineCache) :
    (gc maxAge cache).mGcCount = cache.mGcCount + 1 ∧
    (∀ kv ∈ (gc maxAge cache).mRenderPipelines, kv ∈ cache.mRenderPipelines) ∧
    (∀ kv ∈ cache.mRenderPipelines,
      (kv ∈ (gc maxAge cache).mRenderPipelines ↔
        cache.mGcCount + 1 ≤ kv.2.lastGcCountWhenUsed + maxAge)) ∧
    (∀ n, 1 ≤ n → ∀ kv ∈ cache.mRenderPipelines,
      (kv ∈ ((gc maxAge)^[n] cache).mRenderPipelines ↔
        cache.mGcCount + n ≤ kv.2.lastGcCountWhenUsed + maxAge)) := by
  refine ⟨gc_mGcCount maxAge cache, ?_, ?_, ?_⟩
  · intro kv hkv
    exact ((mem_gc_iff maxAge cache kv).mp hkv).1
  · intro kv hkv
    rw [mem_gc_iff]
    exact ⟨fun h => h.2, fun h => ⟨hkv, h⟩⟩
  · intro n hn kv hkv
    rw [mem_gc_iterate_iff maxAge n hn]
    exact ⟨fun h => h.2, fun h => ⟨hkv, h⟩⟩

/-- C4 witness: with age limit 2 and an entry stamped 0 in a cache at
generation 0, the entry is still present after two sweeps (current = 2 = 0 + 2)
and gone after the third sweep (current = 3 = 0 + 2 + 1). -/
theorem C4_gc_witness :
    (reqBase, (⟨7, 0⟩ : RenderPipelineCacheEntry)) ∈
      ((gc 2)^[2] ⟨0, [(reqBase, ⟨7, 0⟩)]⟩).mRenderPipelines ∧
    (reqBase, (⟨7, 0⟩ : RenderPipelineCacheEntry)) ∉
      ((gc 2)^[3] ⟨0, [(reqBase, ⟨7, 0⟩)]⟩).mRenderPipelines := by
  constructor
  · exact ((C4_gc_increments_and_evicts_exactly_aged 2 ⟨0, [(reqBase, ⟨7, 0⟩)]⟩).2.2.2
      2 (by decide) (reqBase, ⟨7, 0⟩) (List.mem_singleton.mpr rfl)).mpr (by decide)
  · intro h
    exact absurd (((C4_gc_increments_and_evicts_exactly_aged 2 ⟨0, [(reqBase, ⟨7, 0⟩)]⟩).2.2.2
      3 (by decide) (reqBase, ⟨7, 0⟩) (List.mem_singleton.mpr rfl)).mp h) (by decide)

/-- Helper: lookupUpdate on a list whose first Equal-equivalent key is (k, e)
returns the stored pipeline and re-stamps exactly that entry. -/
theorem lookupUpdate_split (g : Nat) (reqs : WebGPURenderPipelineRequirements)
    (l1 : List (WebGPURenderPipelineRequirements × RenderPipelineCacheEntry))
    (k : WebGPURenderPipelineRequirements) (e : RenderPipelineCacheEntry)
    (l2 : List (WebGPURenderPipelineRequirements × RenderPipelineCacheEntry))
    (h1 : ∀ kv ∈ l1, Equal kv.1 reqs = false) (hk : Equal k reqs = true) :
    lookupUpdate g (l1 ++ (k, e) :: l2) reqs =
      some (e.pipeline, l1 ++ (k, ⟨e.pipeline, g⟩) :: l2) := by
  induction l1 with
  | nil =>
    simp only [List.nil_append, lookupUpdate, hk, if_true]
  | cons a t ih =>
    have ha : Equal a.1 reqs = false := h1 a (List.mem_cons_self a t)
    have ht : ∀ kv ∈ t, Equal kv.1 reqs = false := fun kv hkv => h1 kv (List.mem_cons_of_mem a hkv)
    simp only [List.cons_append, lookupUpdate, ha, Bool.false_eq_true, if_false,
      List.append_eq, ih ht]

/-- C5: on a hit — the store holds an entry whose key is Equal-equivalent to
the query, all entries before it not equivalent — getOrCreateRenderPipeline
returns the stored pipeline, does not invoke the constructor (the flag is
false and the result does not depend on the constructor argument, which is
universally quantified), re-stamps exactly that entry with the current
generation counter, and leaves the generation counter and every other entry
unchanged.  Moreover (second conjunct), after inserting a descriptor d into an
empty store, querying with any Equal-equivalent descriptor d2 returns the
object built for d, with the constructor flag false. -/
theorem C5_hit_returns_stored_without_constructor :
    (∀ (create : WebGPURenderPipelineRequirements → Nat) (cache : WebGPUPipelineCache)
       (reqs k : WebGPURenderPipelineRequirements) (e : RenderPipelineCacheEntry)
       (l1 l2 : List (WebGPURenderPipelineRequirements × RenderPipelineCacheEntry)),
       cache.mRenderPipelines = l1 ++ (k, e) :: l2 →
       (∀ kv ∈ l1, Equal kv.1 reqs = false) →
       Equal k reqs = true →
       getOrCreateRenderPipeline create cache reqs =
         { pipeline := e.pipeline,
           cache := { mGcCount := cache.mGcCount,
                      mRenderPipelines := l1 ++ (k, ⟨e.pipeline, cache.mGcCount⟩) :: l2 },
           constructorInvoked := false }) ∧
    (∀ (create create2 : WebGPURenderPipelineRequirements → Nat) (g : Nat)
       (d d2 : WebGPURenderPipelineRequirements),
       Equal d d2 = true →
       getOrCreateRenderPipeline create2
           ((getOrCreateRenderPipeline create ⟨g, []⟩ d).cache) d2 =
         { pipeline := create d,
           cache := ⟨g, [(d, ⟨create d, g⟩)]⟩,
           constructorInvoked := false }) := by
  constructor
  · intro create cache reqs k e l1 l2 hsplit h1 hk
    have hlk := lookupUpdate_split cache.mGcCount reqs l1 k e l2 h1 hk
    simp only [getOrCreateRenderPipeline, hsplit, hlk]
  · intro create create2 g d d2 hd
    have hmiss : getOrCreateRenderPipeline create ⟨g, []⟩ d =
        { pipeline := create d,
          cache := ⟨g, [(d, ⟨create d, 0⟩)]⟩,
          constructorInvoked := true } := rfl
    rw [hmiss]
    have hlk := lookupUpdate_split g d2 [] d ⟨create d, 0⟩ []
      (fun kv hkv => absurd hkv (List.not_mem_nil kv)) hd
    simp only [List.nil_append] at hlk
    simp only [getOrCreateRenderPipeline, hlk]

/-- C5 witness: inserting reqBase into an empty store at generation 5 and
querying reqBase again returns the stored pipeline 7 (not 9, the value a
second constructor invocation would have produced), with the constructor flag
false and the entry re-stamped to generation 5. -/
theorem C5_hit_witness :
    getOrCreateRenderPipeline (fun _ => 9)
        ((getOrCreateRenderPipeline (fun _ => 7) ⟨5, []⟩ reqBase).cache) reqBase =
      { pipeline := 7, cache := ⟨5, [(reqBase, ⟨7, 5⟩)]⟩, constructorInvoked := false } :=
  C5_hit_returns_stored_without_constructor.2 (fun _ => 7) (fun _ => 9) 5 reqBase reqBase
    (by decide)

/-- C6: retrieval protocol of OpenGLBlobCache::retrieve.  When the driver does
not support binary formats or the platform has no retrieve function, the
result is unconditionally absent with zero platform calls.  Otherwise the
first attempt uses the fixed 64 KiB buffer; exactly when the platform reports
a size strictly larger than that buffer, one reallocation of exactly the
reported size and one retry happen (never more than two platform calls); a
reported size of zero yields an absent result (size 0) with a single
allocation and no retry; and the returned buffer always carries the full
stored payload. -/
theorem C6_retrieve_protocol :
    (∀ (sup hasF : Bool) (stored : List Nat),
      sup = false ∨ hasF = false →
      retrieve sup hasF stored =
        { blob := none, reportedSize := none, allocations := 0, platformCalls := 0 }) ∧
    (∀ stored : List Nat,
      (retrieve true true stored).platformCalls =
        (if stored.length > DEFAULT_BLOB_SIZE then 2 else 1) ∧
      ((retrieve true true stored).allocations = 2 ↔
        stored.length > DEFAULT_BLOB_SIZE) ∧
      (retrieve true true stored).platformCalls ≤ 2 ∧
      (retrieve true true stored).blob = some stored ∧
      (retrieve true true stored).reportedSize = some stored.length ∧
      (stored.length = 0 →
        retrieve true true stored =
          { blob := some [], reportedSize := some 0, allocations := 1,
            platformCalls := 1 })) := by
  constructor
  · intro sup hasF stored h
    rcases h with h | h <;> subst h <;> simp [retrieve]
  · intro stored
    by_cases hbig : stored.length > DEFAULT_BLOB_SIZE
    · have hpos : stored.length > 0 := by
        have : (0:Nat) < DEFAULT_BLOB_SIZE := by norm_num [DEFAULT_BLOB_SIZE]
        omega
      have hform : retrieve true true stored =
          { blob := some (stored.take stored.length),
            reportedSize := some stored.length, allocations := 2, platformCalls := 2 } := by
        simp [retrieve, hpos, hbig]
      rw [hform]
      simp only [List.take_length]
      refine ⟨?_, ?_, ?_, ?_, ?_, ?_⟩
      · simp [hbig]
      · simp [hbig]
      · norm_num
      · trivial
      · trivial
      · intro h0
        omega
    · have hform : retrieve true true stored =
          { blob := some (stored.take DEFAULT_BLOB_SIZE),
            reportedSize := some stored.length, allocations := 1, platformCalls := 1 } := by
        rcases Nat.eq_zero_or_pos stored.length with h0 | hpos
        · simp [retrieve, h0]
        · simp [retrieve, hpos, hbig]
      rw [hform]
      have htake : stored.take DEFAULT_BLOB_SIZE = stored :=
        List.take_of_length_le (by omega)
      rw [htake]
      refine ⟨?_, ?_, ?_, ?_, ?_, ?_⟩
      · simp [hbig]
      · simp [hbig]
      · norm_num
      · rfl
      · rfl
      · intro h0
        have hnil : stored = [] := List.length_eq_zero.mp h0
        subst hnil
        rfl

/-- C6 witness: the unsupported path at a concrete input makes no platform
call, and a 3-byte stored payload is returned whole after a single attempt,
while a 65537-byte payload triggers exactly the one retry. -/
theorem C6_retrieve_witness :
    retrieve false true [1, 2, 3] =
      { blob := none, reportedSize := none, allocations := 0, platformCalls := 0 } ∧
    (retrieve true true [1, 2, 3]).blob = some [1, 2, 3] ∧
    (retrieve true true (List.replicate 65537 0)).platformCalls = 2 := by
  refine ⟨C6_retrieve_protocol.1 false true [1, 2, 3] (Or.inl rfl),
    (C6_retrieve_protocol.2 [1, 2, 3]).2.2.2.1, ?_⟩
  have h := (C6_retrieve_protocol.2 (List.replicate 65537 0)).1
  rw [h, List.length_replicate]
  norm_num [DEFAULT_BLOB_SIZE]

/-- C7: OpenGLBlobCache::createProgram verifies both success signals: when the
driver raised an error or the program's link status is not valid, it returns
program 0, issues glDeleteProgram on the partially-created object and logs a
diagnostic carrying the blob's binary format tag; it returns a non-zero
program only when no error was raised and the link status is valid, in which
case nothing is deleted or logged. -/
theorem C7_createProgram_double_check :
    ∀ (createdId glError : Nat) (linkOk : Bool) (blobFormat : Nat),
      (glError ≠ 0 ∨ linkOk = false →
        createProgram createdId glError linkOk blobFormat =
          { programId := 0, deletedProgram := some createdId,
            loggedFormat := some blobFormat }) ∧
      ((createProgram createdId glError linkOk blobFormat).programId ≠ 0 →
        glError = 0 ∧ linkOk = true) ∧
      (glError = 0 → linkOk = true →
        createProgram createdId glError linkOk blobFormat =
          { programId := createdId, deletedProgram := none, loggedFormat := none }) := by
  intro createdId glError linkOk blobFormat
  by_cases herr : glError = 0
  · subst herr
    cases linkOk
    · refine ⟨fun _ => by simp [createProgram], ?_, fun _ hlink => by cases hlink⟩
      intro hp
      exact absurd (by simp [createProgram]) hp
    · exact ⟨fun h => by rcases h with h | h <;> simp_all, fun _ => ⟨rfl, rfl⟩,
        fun _ _ => by simp [createProgram]⟩
  · refine ⟨fun _ => ?_, ?_, fun h0 => absurd h0 herr⟩
    · simp [createProgram, herr]
    · intro hp
      exact absurd (by simp [createProgram, herr]) hp

/-- C7 witness: a program binary accepted by the driver (no GL error) but left
unlinked is destroyed and reported as failure 0 with its format tag logged,
while a clean load returns the created program name untouched. -/
theorem C7_createProgram_witness :
    createProgram 13 0 false 9 =
      { programId := 0, deletedProgram := some 13, loggedFormat := some 9 } ∧
    createProgram 13 0 true 9 =
      { programId := 13, deletedProgram := none, loggedFormat := none } :=
  ⟨(C7_createProgram_double_check 13 0 false 9).1 (Or.inr rfl),
   (C7_createProgram_double_check 13 0 true 9).2.2 rfl rfl⟩

/-- Helper: Bool all over a list only depends on the predicate's values on the
list's elements. -/
theorem list_all_congr_fn {α : Type} (l : List α) (f g : α → Bool)
    (h : ∀ x ∈ l, f x = g x) : l.all f = l.all g := by
  induction l with
  | nil => rfl
  | cons a t ih =>
    simp only [List.all_cons, h a (List.mem_cons_self a t),
      ih (fun x hx => h x (List.mem_cons_of_mem a hx))]

/-- Helper: Bool all over List.range n only depends on the predicate below n. -/
theorem range_all_congr (n : Nat) (f g : Nat → Bool) (h : ∀ i < n, f i = g i) :
    (List.range n).all f = (List.range n).all g :=
  list_all_congr_fn (List.range n) f g (fun i hi => h i (List.mem_range.mp hi))

/-- Helper: one iteration of the vertex-buffer-layout comparison reads the
first argument's layout list only through slot vblIndex. -/
theorem vblMatches_first_congr (a b : WebGPURenderPipelineRequirements)
    (L1 L2 : List VertexBufferLayout) (vblIndex : Nat)
    (hL : L1.getD vblIndex default = L2.getD vblIndex default) :
    vertexBufferLayoutMatches { a with vertexBufferLayouts := L1 } b vblIndex =
      vertexBufferLayoutMatches { a with vertexBufferLayouts := L2 } b vblIndex := by
  dsimp only [vertexBufferLayoutMatches, constantsMatch]
  rw [hL]

/-- Helper: one iteration of the vertex-buffer-layout comparison reads the
second argument's layout list only through slot vblIndex. -/
theorem vblMatches_second_congr (a b : WebGPURenderPipelineRequirements)
    (L1 L2 : List VertexBufferLayout) (vblIndex : Nat)
    (hL : L1.getD vblIndex default = L2.getD vblIndex default) :
    vertexBufferLayoutMatches b { a with vertexBufferLayouts := L1 } vblIndex =
      vertexBufferLayoutMatches b { a with vertexBufferLayouts := L2 } vblIndex := by
  dsimp only [vertexBufferLayoutMatches, constantsMatch]
  rw [hL]

/-- C9 amended: equality examines the vertex-buffer-layout list only through
its active prefix — replacing either argument's layout list by one agreeing on
the slots below the relevant vertexBufferCount leaves the outcome unchanged,
so inactive layout slots may differ freely; every descriptor equals itself;
and two descriptors with identical storage but different vertexBufferCount
compare unequal.  (The vertex-attribute array, by contrast, is compared over
ALL of its slots — see the counterexample theorem.) -/
theorem C9_amended_layout_slots_only :
    (∀ (a b : WebGPURenderPipelineRequirements) (L1 L2 : List VertexBufferLayout),
      (∀ i < a.vertexBufferCount, L1.getD i default = L2.getD i default) →
      Equal { a with vertexBufferLayouts := L1 } b =
        Equal { a with vertexBufferLayouts := L2 } b) ∧
    (∀ (a b : WebGPURenderPipelineRequirements) (L1 L2 : List VertexBufferLayout),
      (∀ i < b.vertexBufferCount, L1.getD i default = L2.getD i default) →
      Equal b { a with vertexBufferLayouts := L1 } =
        Equal b { a with vertexBufferLayouts := L2 }) ∧
    (∀ a : WebGPURenderPipelineRequirements, Equal a a = true) ∧
    (∀ (a : WebGPURenderPipelineRequirements) (c : Nat),
      c ≠ a.vertexBufferCount →
      Equal a { a with vertexBufferCount := c } = false) := by
  refine ⟨?_, ?_, ?_, ?_⟩
  · intro a b L1 L2 h
    dsimp only [Equal]
    rw [range_all_congr a.vertexBufferCount _ _
      (fun i hi => vblMatches_first_congr a b L1 L2 i (h i hi))]
    rfl
  · intro a b L1 L2 h
    dsimp only [Equal]
    rw [range_all_congr b.vertexBufferCount _ _
      (fun i hi => vblMatches_second_congr a b L1 L2 i (h i hi))]
    rfl
  · intro a
    simp [Equal, scalarsMatch, vertexAttributeMatches, vertexBufferLayoutMatches,
      constantsMatch, List.all_eq_true]
  · intro a c hc
    have hbeq : (a.vertexBufferCount == c) = false :=
      beq_eq_false_iff_ne.mpr (fun h => hc h.symm)
    simp [Equal, scalarsMatch, hbeq]

/-- C9 amended witness: with one active vertex buffer, replacing the 16th
(inactive) layout slot by arbitrary data does not change the comparison
outcome, while changing vertexBufferCount alone on identical storage makes the
descriptors unequal. -/
theorem C9_amended_witness :
    Equal { reqOneBuffer with vertexBufferLayouts := List.replicate 16 default } reqOneBuffer =
      Equal { reqOneBuffer with vertexBufferLayouts := junkSlotLayouts } reqOneBuffer ∧
    Equal reqBase { reqBase with vertexBufferCount := 3 } = false :=
  ⟨C9_amended_layout_slots_only.1 reqOneBuffer reqOneBuffer
      (List.replicate 16 default) junkSlotLayouts (by decide),
   C9_amended_layout_slots_only.2.2.2 reqBase 3 (by decide)⟩

/-- C9 counterexample: the claim says two descriptors agreeing on all scalar
channels, all counts and the active prefixes of the variable-length lists
compare equal even when inactive array slots differ; but Equal iterates the
FULL fixed-size vertexAttributes array, so reqBase and reqTrailingAttribute —
identical except for the last (inactive, vertexBufferCount = 0) attribute
slot — compare unequal. -/
theorem C9_inactive_attribute_slot_breaks_equality :
    scalarsMatch reqBase reqTrailingAttribute = true ∧
    reqBase.vertexBufferCount = 0 ∧
    reqTrailingAttribute.vertexBufferCount = 0 ∧
    reqBase.constants = reqTrailingAttribute.constants ∧
    Equal reqBase reqTrailingAttribute = false := by
  refine ⟨by decide, by decide, by decide, by decide, by decide⟩
